import Mathlib

/-!
Verification of the BOLT11 invoice module (`libs/sdk-core/src/invoice.rs`).

Rust strings are embedded as `List Char`; byte arrays as `List Nat`.
The external crates (`lightning_invoice`, `secp256k1`, `hex`) are not part of
the repository source; their behaviour at the boundary is modelled from the
spec and passed in where possible as an explicit `decode` parameter, so every
theorem about `parse_invoice` / `add_lsp_routing_hints` quantifies over the
external decoder and proves only what the repository code itself guarantees.
-/

deriving instance DecidableEq for Except

/-- Modelled from the spec: `crate::Network` is declared outside this module;
the spec fixes its inhabitants as Bitcoin/Testnet/Signet/Regtest. -/
inductive Network
  | bitcoin
  | testnet
  | signet
  | regtest
deriving DecidableEq, Repr

/-- The `InvoiceError` enum of `invoice.rs` (variants `Generic`,
`InvalidNetwork`, `Validation`, each wrapping an `anyhow` message). -/
inductive InvoiceError
  | Generic (msg : String)
  | InvalidNetwork (msg : String)
  | Validation (msg : String)
deriving DecidableEq, Repr

/-- The variant name of an `InvoiceError`, as the exhaustive classifier of
the error kinds that exist in the source. -/
def InvoiceError.kind : InvoiceError → String
  | .Generic _ => "Generic"
  | .InvalidNetwork _ => "InvalidNetwork"
  | .Validation _ => "Validation"

/-- Modelled from the spec: the failures of the external
`lightning_invoice` decoding steps used by `invoice.rs`
(`parse::<SignedRawInvoice>` raises a `ParseError`, `Invoice::from_signed`
raises a `SemanticError`). -/
inductive ExternalDecodeError
  | parseError (msg : String)
  | semanticError (msg : String)
deriving DecidableEq, Repr

/-- The `From<ParseError>` and `From<SemanticError>` impls of `invoice.rs`:
both external decoding failures are wrapped as `InvoiceError::Validation`. -/
def ExternalDecodeError.toInvoiceError : ExternalDecodeError → InvoiceError
  | .parseError m => .Validation m
  | .semanticError m => .Validation m

/-- Modelled from the spec: a secp256k1 compressed public key as carried by
the external crates, reduced to its 33 serialized bytes. -/
structure PublicKey where
  bytes : List Nat
deriving DecidableEq, Repr

/-- The lowercase hex digits, in value order. -/
def hexCharsLower : List Char := "0123456789abcdef".toList

/-- The lowercase hex digit of a nibble (`hex` crate uses lowercase). -/
def hexDigitCh (n : Nat) : Char :=
  match n with
  | 0 => '0' | 1 => '1' | 2 => '2' | 3 => '3'
  | 4 => '4' | 5 => '5' | 6 => '6' | 7 => '7'
  | 8 => '8' | 9 => '9' | 10 => 'a' | 11 => 'b'
  | 12 => 'c' | 13 => 'd' | 14 => 'e' | 15 => 'f'
  | _ => '0'

/-- Modelled from the spec: `hex::ToHex::encode_hex`, the lowercase hex
serialization of a byte sequence used by `serialize().encode_hex()`. -/
def bytesToHex (bs : List Nat) : List Char :=
  bs.flatMap (fun b => [hexDigitCh (b / 16 % 16), hexDigitCh (b % 16)])

/-- Whether a character is a hex digit of either case. -/
def isHexDigitCh (c : Char) : Bool :=
  ('0' ≤ c && c ≤ '9') || ('a' ≤ c && c ≤ 'f') || ('A' ≤ c && c ≤ 'F')

/-- Numeric value of a hex digit (0 for non-digits). -/
def hexVal (c : Char) : Nat :=
  if '0' ≤ c && c ≤ '9' then c.toNat - '0'.toNat
  else if 'a' ≤ c && c ≤ 'f' then c.toNat - 'a'.toNat + 10
  else if 'A' ≤ c && c ≤ 'F' then c.toNat - 'A'.toNat + 10
  else 0

/-- Hex string to bytes, two digits per byte. -/
def hexToBytes : List Char → List Nat
  | c1 :: c2 :: rest => (hexVal c1 * 16 + hexVal c2) :: hexToBytes rest
  | _ => []

/-- Modelled from the spec: `secp256k1::PublicKey::from_str`, accepting a
66-digit hex string of either case for the 33-byte compressed key. -/
def parsePubKey (s : List Char) : Option PublicKey :=
  if s.length = 66 && s.all isHexDigitCh then some ⟨hexToBytes s⟩ else none

/-- The `RouteHintHop` bridge struct of `invoice.rs` (string node id). -/
structure RouteHintHop where
  src_node_id : List Char
  short_channel_id : Nat
  fees_base_msat : Nat
  fees_proportional_millionths : Nat
  cltv_expiry_delta : Nat
  htlc_minimum_msat : Option Nat
  htlc_maximum_msat : Option Nat
deriving DecidableEq, Repr

/-- The `RouteHint` bridge struct of `invoice.rs`. -/
structure RouteHint where
  hops : List RouteHintHop
deriving DecidableEq, Repr

/-- Modelled from the spec: `lightning::routing::router::RouteHintHop`
(node id held as a parsed public key, CLTV delta a `u16`). -/
structure LdkRouteHintHop where
  src_node_id : PublicKey
  short_channel_id : Nat
  fees_base_msat : Nat
  fees_proportional_millionths : Nat
  cltv_expiry_delta : Nat
  htlc_minimum_msat : Option Nat
  htlc_maximum_msat : Option Nat
deriving DecidableEq, Repr

/-- Modelled from the spec: `lightning::routing::router::RouteHint`. -/
structure LdkRouteHint where
  hops : List LdkRouteHintHop
deriving DecidableEq, Repr

/-- The hop-conversion loop inside `RouteHint::to_ldk_hint`: parse each
hop's node id (a `secp256k1::Error` maps to `Generic`), cast the CLTV delta
to `u16` (`as u16` truncates modulo 2^16), keep the other fields. -/
def convertHops : List RouteHintHop → Except InvoiceError (List LdkRouteHintHop)
  | [] => .ok []
  | hop :: rest =>
    match parsePubKey hop.src_node_id with
    | none => .error (.Generic "secp256k1 error")
    | some pk =>
      match convertHops rest with
      | .error e => .error e
      | .ok hops =>
        .ok ({ src_node_id := pk,
               short_channel_id := hop.short_channel_id,
               fees_base_msat := hop.fees_base_msat,
               fees_proportional_millionths := hop.fees_proportional_millionths,
               cltv_expiry_delta := hop.cltv_expiry_delta % 65536,
               htlc_minimum_msat := hop.htlc_minimum_msat,
               htlc_maximum_msat := hop.htlc_maximum_msat } :: hops)

/-- `RouteHint::to_ldk_hint` from `invoice.rs`. -/
def RouteHint.to_ldk_hint (h : RouteHint) : Except InvoiceError LdkRouteHint :=
  match convertHops h.hops with
  | .error e => .error e
  | .ok hops => .ok ⟨hops⟩

/-- `RouteHint::from_ldk_hint` from `invoice.rs`: node ids are serialized to
lowercase hex, the `u16` CLTV delta widens to `u64`. -/
def RouteHint.from_ldk_hint (hint : LdkRouteHint) : RouteHint :=
  ⟨hint.hops.map (fun hop =>
    { src_node_id := bytesToHex hop.src_node_id.bytes,
      short_channel_id := hop.short_channel_id,
      fees_base_msat := hop.fees_base_msat,
      fees_proportional_millionths := hop.fees_proportional_millionths,
      cltv_expiry_delta := hop.cltv_expiry_delta,
      htlc_minimum_msat := hop.htlc_minimum_msat,
      htlc_maximum_msat := hop.htlc_maximum_msat })⟩

/-- Modelled from the spec: `lightning_invoice::InvoiceDescription`, a
two-variant enum — direct description text or a description hash (held here
as its hex rendering, as `h.0.to_string()` produces). -/
inductive InvoiceDescription
  | Direct (msg : List Char)
  | Hash (hex : List Char)
deriving DecidableEq, Repr

/-- Modelled from the spec: the decoded `lightning_invoice::Invoice` as seen
through the accessors `invoice.rs` calls. `signature_valid` abstracts
`check_signature`; `payee_pub_key`/`recovered_pub_key` abstract the `n`-tag
key and the key recovered from the recoverable signature. -/
structure Invoice where
  network : Network
  payment_hash : List Nat
  timestampSecs : Nat
  expiry_time : Nat
  amount_msat : Option Nat
  payment_secret : List Nat
  description : InvoiceDescription
  min_final_cltv_expiry_delta : Nat
  route_hints : List LdkRouteHint
  payee_pub_key : Option PublicKey
  recovered_pub_key : PublicKey
  signature_valid : Bool
deriving DecidableEq, Repr

/-- The `LNInvoice` struct of `invoice.rs`. -/
structure LNInvoice where
  bolt11 : List Char
  network : Network
  payee_pubkey : List Char
  payment_hash : List Char
  description : Option (List Char)
  description_hash : Option (List Char)
  amount_msat : Option Nat
  timestamp : Nat
  expiry : Nat
  routing_hints : List RouteHint
  payment_secret : List Nat
  min_final_cltv_expiry_delta : Nat
deriving DecidableEq, Repr

/-- Modelled from the spec: `lightning_invoice::RawInvoice` as produced by
`InvoiceBuilder::build_raw` — the unsigned structure (a signature is only
present on `SignedRawInvoice`, so `signature` is `none` here). -/
structure RawInvoice where
  currency : Network
  description : InvoiceDescription
  payment_hash : List Nat
  timestampSecs : Nat
  amount_msat : Nat
  expiry_time : Nat
  payment_secret : List Nat
  min_final_cltv_expiry_delta : Nat
  route_hints : List LdkRouteHint
  signature : Option (List Nat)
deriving DecidableEq, Repr

/-- Whitespace as recognised by `str::trim` (restricted to the ASCII
whitespace characters relevant here). -/
def isWs (c : Char) : Bool := c = ' ' || c = '\t' || c = '\n' || c = '\r'

/-- `str::trim` on the character-list embedding of strings. -/
def trimList (l : List Char) : List Char :=
  ((l.dropWhile isWs).reverse.dropWhile isWs).reverse

/-- ASCII lowercasing of one character, as the case-insensitive regex flag
`(?i)` folds the ASCII letters of the scheme marker. -/
def toLowerCh (c : Char) : Char :=
  if 'A' ≤ c && c ≤ 'Z' then Char.ofNat (c.toNat + 32) else c

/-- The characters of the scheme marker the regex matches. -/
def schemeChars : List Char := "lightning:".toList

/-- The regex step of `parse_invoice`: `(?i)^lightning:` anchored at the
start, so `replace_all` removes at most one leading marker,
case-insensitively. -/
def stripLightningScheme (s : List Char) : List Char :=
  if (s.take 10).map toLowerCh = schemeChars then s.drop 10 else s

/-- The route-hint merge of `add_lsp_routing_hints` (`invoice.rs` lines
169–192): no LSP hint keeps the invoice hints; with an LSP hint and
`include_route_hints`, keep each existing hint all of whose hops have a
node-id hex serialization differing from every LSP hop's `src_node_id`
string, then append the converted LSP hint; without `include_route_hints`,
the converted LSP hint alone. -/
def merge_hints (existing : List LdkRouteHint) (lsp_hint : Option RouteHint)
    (include_route_hints : Bool) : Except InvoiceError (List LdkRouteHint) :=
  match lsp_hint with
  | none => .ok existing
  | some lsp =>
    match include_route_hints with
    | true =>
      let all_hints := existing.filter (fun hint =>
        hint.hops.all (fun hop =>
          lsp.hops.all (fun lsp_hop =>
            bytesToHex hop.src_node_id.bytes != lsp_hop.src_node_id)))
      match lsp.to_ldk_hint with
      | .error e => .error e
      | .ok ldk => .ok (all_hints ++ [ldk])
    | false =>
      match lsp.to_ldk_hint with
      | .error e => .error e
      | .ok ldk => .ok [ldk]

/-- `add_lsp_routing_hints` from `invoice.rs`: decode the invoice string
(external crate, passed as `decode`; its failures map through the `From`
impls to `Validation`), merge the hints, and rebuild the unsigned raw
invoice copying every field but the amount from the original. The builder
(`InvoiceBuilder::build_raw`) is modelled from the spec as failure-free for
well-formed inputs. -/
def add_lsp_routing_hints
    (decode : List Char → Except ExternalDecodeError Invoice)
    (invoice : List Char) (include_route_hints : Bool)
    (lsp_hint : Option RouteHint) (new_amount_msats : Nat) :
    Except InvoiceError RawInvoice :=
  match decode invoice with
  | .error e => .error e.toInvoiceError
  | .ok inv =>
    match merge_hints inv.route_hints lsp_hint include_route_hints with
    | .error e => .error e
    | .ok merged =>
      .ok { currency := inv.network,
            description := inv.description,
            payment_hash := inv.payment_hash,
            timestampSecs := inv.timestampSecs,
            amount_msat := new_amount_msats,
            expiry_time := inv.expiry_time,
            payment_secret := inv.payment_secret,
            min_final_cltv_expiry_delta := inv.min_final_cltv_expiry_delta,
            route_hints := merged,
            signature := none }

/-- `validate_network` from `invoice.rs`. -/
def validate_network (invoice : LNInvoice) (network : Network) :
    Except InvoiceError Unit :=
  match invoice.network == network with
  | true => .ok ()
  | false => .error (.InvalidNetwork "Invoice network does not match config")

/-- `parse_invoice` from `invoice.rs`: reject blank input, strip a leading
scheme marker, decode (external crate via `decode`), check the signature,
take the payee key from the `n` tag or recover it, and assemble the
`LNInvoice`. -/
def parse_invoice (decode : List Char → Except ExternalDecodeError Invoice)
    (bolt11 : List Char) : Except InvoiceError LNInvoice :=
  if trimList bolt11 = [] then
    .error (.Validation "bolt11 is an empty string")
  else
    let b := stripLightningScheme bolt11
    match decode b with
    | .error e => .error e.toInvoiceError
    | .ok invoice =>
      if invoice.signature_valid then
        .ok { bolt11 := b,
              network := invoice.network,
              payee_pubkey :=
                match invoice.payee_pub_key with
                | some key => bytesToHex key.bytes
                | none => bytesToHex invoice.recovered_pub_key.bytes,
              expiry := invoice.expiry_time,
              amount_msat := invoice.amount_msat,
              timestamp := invoice.timestampSecs,
              routing_hints := invoice.route_hints.map RouteHint.from_ldk_hint,
              payment_hash := bytesToHex invoice.payment_hash,
              payment_secret := invoice.payment_secret,
              description :=
                match invoice.description with
                | .Direct msg => some msg
                | .Hash _ => none,
              description_hash :=
                match invoice.description with
                | .Direct _ => none
                | .Hash h => some h,
              min_final_cltv_expiry_delta :=
                invoice.min_final_cltv_expiry_delta }
      else
        .error (.Validation "invalid signature")

/-- A stand-in external decoder that always reports a bech32 parse failure. -/
def decodeStub : List Char → Except ExternalDecodeError Invoice :=
  fun _ => Except.error (.parseError "parse error")

/-- A stand-in external decoder reporting a checksum failure. -/
def decodeFail : List Char → Except ExternalDecodeError Invoice :=
  fun _ => Except.error (.parseError "bad checksum")

/-- A 66-digit lowercase hex node id. -/
def sampleKeyHexA : List Char := '0' :: '2' :: List.replicate 64 'a'

/-- A second, distinct 66-digit lowercase hex node id. -/
def sampleKeyHexB : List Char := '0' :: '3' :: List.replicate 64 'b'

/-- The uppercase rendering of `sampleKeyHexA`'s trailing digits. -/
def sampleKeyHexUpper : List Char := '0' :: '2' :: List.replicate 64 'A'

/-- The public key serialized by `sampleKeyHexA`. -/
def samplePkA : PublicKey := ⟨hexToBytes sampleKeyHexA⟩

/-- The public key serialized by `sampleKeyHexB`. -/
def samplePkB : PublicKey := ⟨hexToBytes sampleKeyHexB⟩

/-- An LDK hop owned by node A. -/
def sampleLdkHopA : LdkRouteHintHop :=
  { src_node_id := samplePkA, short_channel_id := 1, fees_base_msat := 10,
    fees_proportional_millionths := 20, cltv_expiry_delta := 40,
    htlc_minimum_msat := none, htlc_maximum_msat := none }

/-- An LDK hop owned by node B. -/
def sampleLdkHopB : LdkRouteHintHop :=
  { src_node_id := samplePkB, short_channel_id := 2, fees_base_msat := 10,
    fees_proportional_millionths := 20, cltv_expiry_delta := 40,
    htlc_minimum_msat := none, htlc_maximum_msat := none }

/-- An existing invoice hint through node A. -/
def sampleLdkHintA : LdkRouteHint := ⟨[sampleLdkHopA]⟩

/-- An existing invoice hint through node B. -/
def sampleLdkHintB : LdkRouteHint := ⟨[sampleLdkHopB]⟩

/-- An LSP hint whose hop is node A (lowercase hex id), with the fee and
CLTV figures of the repository's own test. -/
def sampleLsp : RouteHint :=
  ⟨[{ src_node_id := sampleKeyHexA, short_channel_id := 1234,
      fees_base_msat := 1000, fees_proportional_millionths := 100,
      cltv_expiry_delta := 2000, htlc_minimum_msat := some 3000,
      htlc_maximum_msat := some 4000 }]⟩

/-- The LDK conversion of `sampleLsp`. -/
def sampleLspLdk : LdkRouteHint :=
  ⟨[{ src_node_id := samplePkA, short_channel_id := 1234,
      fees_base_msat := 1000, fees_proportional_millionths := 100,
      cltv_expiry_delta := 2000, htlc_minimum_msat := some 3000,
      htlc_maximum_msat := some 4000 }]⟩

/-- The same LSP hint as `sampleLsp` with the node id written uppercase. -/
def sampleLspUpper : RouteHint :=
  ⟨[{ src_node_id := sampleKeyHexUpper, short_channel_id := 1234,
      fees_base_msat := 1000, fees_proportional_millionths := 100,
      cltv_expiry_delta := 2000, htlc_minimum_msat := some 3000,
      htlc_maximum_msat := some 4000 }]⟩

/-- A hint whose hop carries a CLTV delta of 70000, above the `u16` range. -/
def sampleCltvHint : RouteHint :=
  ⟨[{ src_node_id := sampleKeyHexB, short_channel_id := 9,
      fees_base_msat := 0, fees_proportional_millionths := 0,
      cltv_expiry_delta := 70000, htlc_minimum_msat := none,
      htlc_maximum_msat := none }]⟩

/-- The LDK conversion of `sampleCltvHint`: 70000 truncates to 4464. -/
def sampleCltvLdk : LdkRouteHint :=
  ⟨[{ src_node_id := samplePkB, short_channel_id := 9,
      fees_base_msat := 0, fees_proportional_millionths := 0,
      cltv_expiry_delta := 4464, htlc_minimum_msat := none,
      htlc_maximum_msat := none }]⟩

/-- A decoded invoice with two existing hints (through A and B), a valid
signature, no explicit payee key, and node B as the recovered key. -/
def sampleInvoice : Invoice :=
  { network := .bitcoin, payment_hash := List.replicate 32 1,
    timestampSecs := 1650000000, expiry_time := 3600,
    amount_msat := some 11000, payment_secret := List.replicate 32 2,
    description := .Direct [], min_final_cltv_expiry_delta := 18,
    route_hints := [sampleLdkHintA, sampleLdkHintB],
    payee_pub_key := none, recovered_pub_key := samplePkB,
    signature_valid := true }

/-- `sampleInvoice` with a failing signature check. -/
def sampleInvoiceBadSig : Invoice := { sampleInvoice with signature_valid := false }

/-- An external decoder that yields `sampleInvoice` for any input. -/
def decodeOk : List Char → Except ExternalDecodeError Invoice :=
  fun _ => Except.ok sampleInvoice

/-- An external decoder that yields the bad-signature invoice. -/
def decodeBadSig : List Char → Except ExternalDecodeError Invoice :=
  fun _ => Except.ok sampleInvoiceBadSig

/-- The `LNInvoice` that `parse_invoice decodeOk` produces on input `x`. -/
def sampleLN : LNInvoice :=
  { bolt11 := ['x'], network := .bitcoin,
    payee_pubkey := bytesToHex samplePkB.bytes,
    payment_hash := bytesToHex (List.replicate 32 1),
    description := some [], description_hash := none,
    amount_msat := some 11000, timestamp := 1650000000, expiry := 3600,
    routing_hints := [RouteHint.from_ldk_hint sampleLdkHintA,
                      RouteHint.from_ldk_hint sampleLdkHintB],
    payment_secret := List.replicate 32 2,
    min_final_cltv_expiry_delta := 18 }

/-- The raw invoice rebuilt from `sampleInvoice` with amount 100 and the
LSP hint merged in (hint A collides with the LSP hop and is dropped). -/
def sampleRaw : RawInvoice :=
  { currency := .bitcoin, description := .Direct [],
    payment_hash := List.replicate 32 1, timestampSecs := 1650000000,
    amount_msat := 100, expiry_time := 3600,
    payment_secret := List.replicate 32 2,
    min_final_cltv_expiry_delta := 18,
    route_hints := [sampleLdkHintB, sampleLspLdk], signature := none }

theorem trimList_eq_nil_iff (l : List Char) :
    trimList l = [] ↔ ∀ c ∈ l, isWs c = true := by
  unfold trimList
  rw [List.reverse_eq_nil_iff, List.dropWhile_eq_nil_iff]
  simp only [List.mem_reverse]
  constructor
  · intro h c hc
    have hsplit := List.takeWhile_append_dropWhile (p := isWs) (l := l)
    rw [← hsplit] at hc
    rcases List.mem_append.mp hc with h1 | h2
    · exact List.mem_takeWhile_imp h1
    · exact h c h2
  · intro h c hc
    exact h c ((List.dropWhile_sublist (p := isWs)).subset hc)

theorem hexDigitCh_lower (n : Nat) : hexDigitCh n ∈ hexCharsLower := by
  unfold hexDigitCh
  split <;> decide

theorem bytesToHex_mem (bs : List Nat) (c : Char) (hc : c ∈ bytesToHex bs) :
    c ∈ hexCharsLower := by
  unfold bytesToHex at hc
  rcases List.mem_flatMap.mp hc with ⟨b, _, hcb⟩
  simp only [List.mem_cons, List.not_mem_nil, or_false] at hcb
  rcases hcb with h | h <;> exact h ▸ hexDigitCh_lower _


/-- Claim C6: `validate_network` succeeds exactly when the invoice's network
equals the expected network, fails with `InvalidNetwork` otherwise, and any
invoice returned by `parse_invoice` validates against its own network. -/
theorem validate_network_spec :
    ∀ (inv : LNInvoice) (net : Network),
      (inv.network = net → validate_network inv net = Except.ok ()) ∧
      (inv.network ≠ net →
        validate_network inv net =
          Except.error
            (InvoiceError.InvalidNetwork "Invoice network does not match config")) ∧
      (∀ decode (s : List Char) (lninv : LNInvoice),
        parse_invoice decode s = Except.ok lninv →
        validate_network lninv lninv.network = Except.ok ()) := by
  intro inv net
  refine ⟨?_, ?_, ?_⟩
  · intro h
    simp [validate_network, h]
  · intro h
    have hb : (inv.network == net) = false := beq_eq_false_iff_ne.mpr h
    simp [validate_network, hb]
  · intro decode s lninv _
    simp [validate_network]

/-- Claim C6 witness: concrete success and failure of `validate_network`. -/
theorem validate_network_spec_witness :
    validate_network sampleLN Network.bitcoin = Except.ok () ∧
    validate_network sampleLN Network.testnet =
      Except.error
        (InvoiceError.InvalidNetwork "Invoice network does not match config") :=
  ⟨(validate_network_spec sampleLN Network.bitcoin).1 rfl,
   (validate_network_spec sampleLN Network.testnet).2.1 (by decide)⟩

/-- Claim C3 counterexample: on the empty input, `parse_invoice` fails with
the `Validation` variant carrying the message `bolt11 is an empty string`;
the source's `InvoiceError` enum has no `EmptyInput` kind at all, so the
failure kind is not `EmptyInput`. -/
theorem parse_invoice_empty_counterexample :
    parse_invoice decodeStub [] =
      Except.error (InvoiceError.Validation "bolt11 is an empty string") ∧
    (InvoiceError.Validation "bolt11 is an empty string").kind = "Validation" ∧
    (InvoiceError.Validation "bolt11 is an empty string").kind ≠ "EmptyInput" :=
  ⟨rfl, rfl, by decide⟩

/-- Claim C3 (amended): every empty or whitespace-only input makes
`parse_invoice` fail, before the external decoder is ever consulted, with
`InvoiceError::Validation` and the message `bolt11 is an empty string`
(there is no `EmptyInput` error kind in the code). -/
theorem parse_invoice_empty_validation :
    ∀ decode (s : List Char), trimList s = [] →
      parse_invoice decode s =
        Except.error (InvoiceError.Validation "bolt11 is an empty string") := by
  intro decode s h
  simp [parse_invoice, h]

/-- Claim C3 witness: the whitespace-only input consisting of one space. -/
theorem parse_invoice_empty_validation_witness :
    trimList [' '] = [] ∧
    parse_invoice decodeStub [' '] =
      Except.error (InvoiceError.Validation "bolt11 is an empty string") :=
  ⟨by decide, parse_invoice_empty_validation decodeStub [' '] (by decide)⟩

/-- Claim C4 counterexample: when the external bech32 decode fails, the
failure surfaces as the `Validation` kind (via the `From<ParseError>` impl),
not as a `MalformedEncoding` kind — no such kind exists in the source. -/
theorem parse_invoice_decode_error_counterexample :
    parse_invoice decodeFail ['x'] =
      Except.error (InvoiceError.Validation "bad checksum") ∧
    (InvoiceError.Validation "bad checksum").kind ≠ "MalformedEncoding" :=
  ⟨rfl, by decide⟩

/-- Claim C4 (amended): for every non-blank input whose external decode
fails with a `ParseError` (checksum failure, wrong bit-group counts,
truncated tagged field, wrong signature-remainder length), `parse_invoice`
fails with the `Validation` kind wrapping that error's message, because the
source maps `lightning_invoice::ParseError` to `InvoiceError::Validation`
and has no `MalformedEncoding` kind. -/
theorem parse_invoice_decode_error_validation :
    ∀ decode (s : List Char) (m : String), trimList s ≠ [] →
      decode (stripLightningScheme s) =
        Except.error (ExternalDecodeError.parseError m) →
      parse_invoice decode s = Except.error (InvoiceError.Validation m) := by
  intro decode s m h hdec
  simp [parse_invoice, h, hdec, ExternalDecodeError.toInvoiceError]

/-- Claim C4 witness: a concrete failing decode on input `x`. -/
theorem parse_invoice_decode_error_validation_witness :
    trimList ['x'] ≠ [] ∧
    decodeFail (stripLightningScheme ['x']) =
      Except.error (ExternalDecodeError.parseError "bad checksum") ∧
    parse_invoice decodeFail ['x'] =
      Except.error (InvoiceError.Validation "bad checksum") :=
  ⟨by decide, rfl,
   parse_invoice_decode_error_validation decodeFail ['x'] "bad checksum"
     (by decide) rfl⟩

/-- Claim C7: every `LNInvoice` returned by `parse_invoice` has exactly one
of `description` and `description_hash` populated, never both. -/
theorem parse_invoice_description_xor :
    ∀ decode (s : List Char) (lninv : LNInvoice),
      parse_invoice decode s = Except.ok lninv →
      (lninv.description.isSome = true ∧ lninv.description_hash = none) ∨
      (lninv.description = none ∧ lninv.description_hash.isSome = true) := by
  intro decode s lninv hok
  by_cases ht : trimList s = []
  · simp [parse_invoice, ht] at hok
  · simp only [parse_invoice, if_neg ht] at hok
    cases hdec : decode (stripLightningScheme s) with
    | error e => rw [hdec] at hok; simp at hok
    | ok inv =>
      rw [hdec] at hok
      by_cases hsig : inv.signature_valid
      · simp only [hsig, if_true, Except.ok.injEq] at hok
        subst hok
        cases hd : inv.description with
        | Direct m => left; simp [hd]
        | Hash h => right; simp [hd]
      · simp [hsig] at hok

/-- Claim C7 witness: the parsed sample invoice has a direct description
and no description hash. -/
theorem parse_invoice_description_xor_witness :
    parse_invoice decodeOk ['x'] = Except.ok sampleLN ∧
    ((sampleLN.description.isSome = true ∧ sampleLN.description_hash = none) ∨
     (sampleLN.description = none ∧ sampleLN.description_hash.isSome = true)) :=
  ⟨rfl, parse_invoice_description_xor decodeOk ['x'] sampleLN rfl⟩

/-- Claim C5: the `payee_pubkey` of a parsed invoice is the hex of the
explicit `n`-tag key when present, otherwise the hex of the key recovered
from the signature; an invoice whose signature check fails makes
`parse_invoice` fail with the `Validation` kind instead of returning. -/
theorem parse_invoice_payee_pubkey :
    ∀ decode (s : List Char) (inv : Invoice) (lninv : LNInvoice),
      decode (stripLightningScheme s) = Except.ok inv →
      ((parse_invoice decode s = Except.ok lninv →
          lninv.payee_pubkey =
            (match inv.payee_pub_key with
             | some key => bytesToHex key.bytes
             | none => bytesToHex inv.recovered_pub_key.bytes)) ∧
       (inv.signature_valid = false → trimList s ≠ [] →
          parse_invoice decode s =
            Except.error (InvoiceError.Validation "invalid signature"))) := by
  intro decode s inv lninv hdec
  constructor
  · intro hok
    by_cases ht : trimList s = []
    · simp [parse_invoice, ht] at hok
    · simp only [parse_invoice, if_neg ht, hdec] at hok
      by_cases hsig : inv.signature_valid
      · simp only [hsig, if_true, Except.ok.injEq] at hok
        subst hok
        rfl
      · simp [hsig] at hok
  · intro hsig ht
    simp [parse_invoice, if_neg ht, hdec, hsig]

/-- Claim C5 witness: the sample invoice has no `n` tag, so the recovered
key's hex becomes `payee_pubkey`; the bad-signature variant fails. -/
theorem parse_invoice_payee_pubkey_witness :
    decodeOk (stripLightningScheme ['x']) = Except.ok sampleInvoice ∧
    parse_invoice decodeOk ['x'] = Except.ok sampleLN ∧
    sampleLN.payee_pubkey = bytesToHex sampleInvoice.recovered_pub_key.bytes ∧
    parse_invoice decodeBadSig ['x'] =
      Except.error (InvoiceError.Validation "invalid signature") :=
  ⟨rfl, rfl,
   (parse_invoice_payee_pubkey decodeOk ['x'] sampleInvoice sampleLN rfl).1 rfl,
   (parse_invoice_payee_pubkey decodeBadSig ['x'] sampleInvoiceBadSig sampleLN
      rfl).2 rfl (by decide)⟩

/-- Claim C1: the three cases of the route-hint merge policy of
`add_lsp_routing_hints`: no LSP hint leaves the existing hints unchanged;
with `include_existing` the result keeps exactly the existing hints none of
whose hops serializes to any LSP hop's source node id, with the LSP hint
appended last; without `include_existing` the result is the LSP hint
alone. -/
theorem merge_hints_policy :
    ∀ (existing : List LdkRouteHint) (lsp : RouteHint) (ldk : LdkRouteHint)
      (b : Bool),
      merge_hints existing none b = Except.ok existing ∧
      (RouteHint.to_ldk_hint lsp = Except.ok ldk →
        merge_hints existing (some lsp) true =
          Except.ok ((existing.filter (fun hint =>
            decide (∀ hop ∈ hint.hops, ∀ lh ∈ lsp.hops,
              bytesToHex hop.src_node_id.bytes ≠ lh.src_node_id))) ++ [ldk])) ∧
      (RouteHint.to_ldk_hint lsp = Except.ok ldk →
        merge_hints existing (some lsp) false = Except.ok [ldk]) := by
  intro existing lsp ldk b
  refine ⟨rfl, ?_, ?_⟩
  · intro h
    simp only [merge_hints, h]
    congr 2
    apply List.filter_congr
    intro hint _
    rw [Bool.eq_iff_iff]
    simp [List.all_eq_true, bne_iff_ne]
  · intro h
    simp [merge_hints, h]

/-- Claim C1 witness: with an existing hint through node A and one through
node B and an LSP hint at node A, merging keeps only the B hint and appends
the LSP hint; the other two policy cases on the same data. -/
theorem merge_hints_policy_witness :
    RouteHint.to_ldk_hint sampleLsp = Except.ok sampleLspLdk ∧
    merge_hints [sampleLdkHintA, sampleLdkHintB] none true =
      Except.ok [sampleLdkHintA, sampleLdkHintB] ∧
    merge_hints [sampleLdkHintA, sampleLdkHintB] (some sampleLsp) true =
      Except.ok [sampleLdkHintB, sampleLspLdk] ∧
    merge_hints [sampleLdkHintA, sampleLdkHintB] (some sampleLsp) false =
      Except.ok [sampleLspLdk] :=
  ⟨rfl,
   (merge_hints_policy [sampleLdkHintA, sampleLdkHintB] sampleLsp sampleLspLdk
      true).1,
   ((merge_hints_policy [sampleLdkHintA, sampleLdkHintB] sampleLsp sampleLspLdk
      true).2.1 rfl).trans (by decide),
   (merge_hints_policy [sampleLdkHintA, sampleLdkHintB] sampleLsp sampleLspLdk
      true).2.2 rfl⟩

/-- Claim C9: the merge's collision test compares the LSP hop's node-id
string byte-for-byte against the lowercase hex serialization of each
existing hop's key, so an LSP hint whose every hop id contains a character
outside the lowercase hex digits (e.g. uppercase hex) never collides:
no existing hint is dropped. -/
theorem merge_hints_uppercase_no_drop :
    ∀ (existing : List LdkRouteHint) (lsp : RouteHint) (ldk : LdkRouteHint),
      (∀ lh ∈ lsp.hops, ∃ c ∈ lh.src_node_id, c ∉ hexCharsLower) →
      RouteHint.to_ldk_hint lsp = Except.ok ldk →
      merge_hints existing (some lsp) true = Except.ok (existing ++ [ldk]) := by
  intro existing lsp ldk hup h
  simp only [merge_hints, h]
  congr 2
  apply List.filter_eq_self.mpr
  intro hint _
  rw [List.all_eq_true]
  intro hop _
  rw [List.all_eq_true]
  intro lh hlh
  rw [bne_iff_ne]
  intro heq
  obtain ⟨c, hc, hcnot⟩ := hup lh hlh
  exact hcnot (bytesToHex_mem hop.src_node_id.bytes c (heq ▸ hc))

/-- Claim C9 witness: the LSP hint at node A written in uppercase hex fails
to collide with the existing hint through the very same node A, so both
existing hints survive the merge. -/
theorem merge_hints_uppercase_no_drop_witness :
    (∀ lh ∈ sampleLspUpper.hops, ∃ c ∈ lh.src_node_id, c ∉ hexCharsLower) ∧
    RouteHint.to_ldk_hint sampleLspUpper = Except.ok sampleLspLdk ∧
    merge_hints [sampleLdkHintA, sampleLdkHintB] (some sampleLspUpper) true =
      Except.ok [sampleLdkHintA, sampleLdkHintB, sampleLspLdk] :=
  ⟨by decide, by decide,
   (merge_hints_uppercase_no_drop [sampleLdkHintA, sampleLdkHintB]
      sampleLspUpper sampleLspLdk (by decide) (by decide)).trans (by decide)⟩

theorem convertHops_cltv (hops : List RouteHintHop)
    (hp : ∀ hop ∈ hops, (parsePubKey hop.src_node_id).isSome = true) :
    ∃ ls, convertHops hops = Except.ok ls ∧
      ls.map (fun x => x.cltv_expiry_delta) =
        hops.map (fun hop => hop.cltv_expiry_delta % 65536) := by
  induction hops with
  | nil => exact ⟨[], rfl, rfl⟩
  | cons hop rest ih =>
    have h1 := hp hop (List.mem_cons_self hop rest)
    obtain ⟨pk, hpk⟩ := Option.isSome_iff_exists.mp h1
    obtain ⟨ls, hls, hmap⟩ := ih (fun x hx => hp x (List.mem_cons_of_mem _ hx))
    refine ⟨{ src_node_id := pk,
              short_channel_id := hop.short_channel_id,
              fees_base_msat := hop.fees_base_msat,
              fees_proportional_millionths := hop.fees_proportional_millionths,
              cltv_expiry_delta := hop.cltv_expiry_delta % 65536,
              htlc_minimum_msat := hop.htlc_minimum_msat,
              htlc_maximum_msat := hop.htlc_maximum_msat } :: ls, ?_, ?_⟩
    · simp only [convertHops, hpk, hls]
    · simp [hmap]

/-- Claim C10: converting a hint whose hops all carry parsable node ids
never fails on the CLTV delta; instead each hop's `cltv_expiry_delta` is
silently reduced modulo 2^16 (the `as u16` cast), which strictly shrinks
any delta of 2^16 or more. -/
theorem to_ldk_hint_cltv_truncation :
    ∀ (h : RouteHint),
      (∀ hop ∈ h.hops, (parsePubKey hop.src_node_id).isSome = true) →
      ∃ ldk, RouteHint.to_ldk_hint h = Except.ok ldk ∧
        ldk.hops.map (fun x => x.cltv_expiry_delta) =
          h.hops.map (fun hop => hop.cltv_expiry_delta % 65536) ∧
        ∀ hop ∈ h.hops, 65536 ≤ hop.cltv_expiry_delta →
          hop.cltv_expiry_delta % 65536 < hop.cltv_expiry_delta := by
  intro h hp
  obtain ⟨ls, hls, hmap⟩ := convertHops_cltv h.hops hp
  refine ⟨⟨ls⟩, ?_, hmap, ?_⟩
  · simp only [RouteHint.to_ldk_hint, hls]
  · intro hop _ hge
    calc hop.cltv_expiry_delta % 65536 < 65536 :=
          Nat.mod_lt _ (by norm_num)
      _ ≤ hop.cltv_expiry_delta := hge

/-- Claim C10 witness: a hop with CLTV delta 70000 converts successfully
and comes out as 4464 = 70000 mod 2^16. -/
theorem to_ldk_hint_cltv_truncation_witness :
    (∀ hop ∈ sampleCltvHint.hops, (parsePubKey hop.src_node_id).isSome = true) ∧
    RouteHint.to_ldk_hint sampleCltvHint = Except.ok sampleCltvLdk ∧
    (∃ ldk, RouteHint.to_ldk_hint sampleCltvHint = Except.ok ldk ∧
      ldk.hops.map (fun x => x.cltv_expiry_delta) =
        sampleCltvHint.hops.map (fun hop => hop.cltv_expiry_delta % 65536) ∧
      ∀ hop ∈ sampleCltvHint.hops, 65536 ≤ hop.cltv_expiry_delta →
        hop.cltv_expiry_delta % 65536 < hop.cltv_expiry_delta) :=
  ⟨by decide, by decide,
   to_ldk_hint_cltv_truncation sampleCltvHint (by decide)⟩

/-- Claim C2: for every invoice string the external decoder accepts,
`add_lsp_routing_hints` rebuilds a raw invoice copying network/currency,
description-or-hash, payment hash, timestamp, expiry, payment secret and
min-final-CLTV-delta verbatim, setting the amount to the supplied value and
the route hints to the merged hints in order; the result carries no
signature. -/
theorem add_lsp_routing_hints_reconstruction :
    ∀ decode (s : List Char) (inc : Bool) (lsp : Option RouteHint) (amt : Nat)
      (inv : Invoice) (raw : RawInvoice),
      decode s = Except.ok inv →
      add_lsp_routing_hints decode s inc lsp amt = Except.ok raw →
      raw.currency = inv.network ∧
      raw.description = inv.description ∧
      raw.payment_hash = inv.payment_hash ∧
      raw.timestampSecs = inv.timestampSecs ∧
      raw.expiry_time = inv.expiry_time ∧
      raw.payment_secret = inv.payment_secret ∧
      raw.min_final_cltv_expiry_delta = inv.min_final_cltv_expiry_delta ∧
      raw.amount_msat = amt ∧
      merge_hints inv.route_hints lsp inc = Except.ok raw.route_hints ∧
      raw.signature = none := by
  intro decode s inc lsp amt inv raw hdec hadd
  simp only [add_lsp_routing_hints, hdec] at hadd
  cases hm : merge_hints inv.route_hints lsp inc with
  | error e => rw [hm] at hadd; simp at hadd
  | ok merged =>
    rw [hm] at hadd
    simp only [Except.ok.injEq] at hadd
    subst hadd
    exact ⟨rfl, rfl, rfl, rfl, rfl, rfl, rfl, rfl, rfl, rfl⟩

/-- Claim C2 witness: reconstructing the sample invoice with amount 100 and
the LSP hint merged in yields `sampleRaw`, whose fields copy the
original's. -/
theorem add_lsp_routing_hints_reconstruction_witness :
    decodeOk ['x'] = Except.ok sampleInvoice ∧
    add_lsp_routing_hints decodeOk ['x'] true (some sampleLsp) 100 =
      Except.ok sampleRaw ∧
    (sampleRaw.currency = sampleInvoice.network ∧
     sampleRaw.description = sampleInvoice.description ∧
     sampleRaw.payment_hash = sampleInvoice.payment_hash ∧
     sampleRaw.timestampSecs = sampleInvoice.timestampSecs ∧
     sampleRaw.expiry_time = sampleInvoice.expiry_time ∧
     sampleRaw.payment_secret = sampleInvoice.payment_secret ∧
     sampleRaw.min_final_cltv_expiry_delta =
       sampleInvoice.min_final_cltv_expiry_delta ∧
     sampleRaw.amount_msat = 100 ∧
     merge_hints sampleInvoice.route_hints (some sampleLsp) true =
       Except.ok sampleRaw.route_hints ∧
     sampleRaw.signature = none) :=
  ⟨rfl, by decide,
   add_lsp_routing_hints_reconstruction decodeOk ['x'] true (some sampleLsp)
     100 sampleInvoice sampleRaw rfl (by decide)⟩

/-- Claim C8 counterexample: the input consisting of the bare scheme marker
is stripped to the empty string only after the blank-input check has passed,
so parsing it consults the decoder while parsing its unprefixed remainder
(the empty string) fails early with the blank-input error: the two results
differ. -/
theorem parse_invoice_scheme_marker_counterexample :
    stripLightningScheme schemeChars = [] ∧
    parse_invoice decodeFail schemeChars =
      Except.error (InvoiceError.Validation "bad checksum") ∧
    parse_invoice decodeFail [] =
      Except.error (InvoiceError.Validation "bolt11 is an empty string") ∧
    parse_invoice decodeFail schemeChars ≠ parse_invoice decodeFail [] := by
  refine ⟨by decide, by decide, by decide, by decide⟩

/-- Claim C8 (amended): a leading scheme marker is stripped
case-insensitively exactly once before decoding, so parsing a prefixed
string equals parsing the unprefixed remainder provided the remainder is
not blank (the blank-input check runs on the original string before
stripping) and does not itself start with another marker; a marker not at
the start is never stripped. -/
theorem parse_invoice_scheme_marker :
    ∀ decode (p s : List Char),
      p.map toLowerCh = schemeChars →
      trimList s ≠ [] →
      (s.take 10).map toLowerCh ≠ schemeChars →
      (stripLightningScheme (p ++ s) = s ∧
       stripLightningScheme s = s ∧
       parse_invoice decode (p ++ s) = parse_invoice decode s) := by
  intro decode p s hp hs hns
  have hplen : p.length = 10 := by
    have hlen := congrArg List.length hp
    rw [List.length_map] at hlen
    simpa using hlen
  have htake : (p ++ s).take 10 = p := by
    rw [← hplen]
    exact List.take_left p s
  have hdrop : (p ++ s).drop 10 = s := by
    rw [← hplen]
    exact List.drop_left p s
  have hstrip1 : stripLightningScheme (p ++ s) = s := by
    unfold stripLightningScheme
    rw [htake, if_pos hp, hdrop]
  have hstrip2 : stripLightningScheme s = s := by
    unfold stripLightningScheme
    rw [if_neg hns]
  have htrimps : trimList (p ++ s) ≠ [] := by
    intro hnil
    apply hs
    rw [trimList_eq_nil_iff] at hnil ⊢
    intro c hc
    exact hnil c (List.mem_append.mpr (Or.inr hc))
  refine ⟨hstrip1, hstrip2, ?_⟩
  simp only [parse_invoice, if_neg htrimps, if_neg hs, hstrip1, hstrip2]

/-- Claim C8 witness: parsing `LIGHTNING:` followed by `x` equals parsing
the bare `x`. -/
theorem parse_invoice_scheme_marker_witness :
    ("LIGHTNING:".toList.map toLowerCh = schemeChars) ∧
    trimList ['x'] ≠ [] ∧
    (['x'].take 10).map toLowerCh ≠ schemeChars ∧
    (stripLightningScheme ("LIGHTNING:".toList ++ ['x']) = ['x'] ∧
     stripLightningScheme ['x'] = ['x'] ∧
     parse_invoice decodeFail ("LIGHTNING:".toList ++ ['x']) =
       parse_invoice decodeFail ['x']) :=
  ⟨by decide, by decide, by decide,
   parse_invoice_scheme_marker decodeFail "LIGHTNING:".toList ['x']
     (by decide) (by decide) (by decide)⟩
